import Mathlib

/-!
Verification of the pod-manager controller (src/controller.py) against its
specification. The controller is a thin wrapper around an external
container-engine client; we embed each controller operation as a pure Lean
function parametrised by the engine's responses, and record the engine calls
the operation issues as an explicit trace.
-/

namespace PodManager

/-- A deployment configuration dictionary (`config` argument of
`deploy_container`). Each field models the presence of a key in the Python
dict: `none` means the key is absent. -/
structure Config where
  image : Option String
  name : Option String
  environment : Option (List (String × String))
  ports : Option (List (String × Nat))
  command : Option (List String)
  volumes : Option (List (String × String))
deriving Repr, DecidableEq

/-- The keyword-argument dictionary built by `deploy_container` and passed to
`client.containers.run`. Mirrors the `container_config` dict of the source:
`image` and `detach` are always set; `name` is set only when truthy; the
remaining keys are copied when present in the input config. -/
structure ContainerConfig where
  image : String
  detach : Bool
  name : Option String
  environment : Option (List (String × String))
  ports : Option (List (String × Nat))
  command : Option (List String)
  volumes : Option (List (String × String))
deriving Repr, DecidableEq

/-- Errors raised by the engine client. `notFound` models
`docker.errors.NotFound`; `other` models any other exception. -/
inductive EngErr where
  | notFound
  | other (msg : String)
deriving Repr, DecidableEq

/-- Errors raised by `client.containers.run`: `apiError` models
`docker.errors.APIError`, `otherErr` any other exception. -/
inductive RunErr where
  | apiError (msg : String)
  | otherErr (msg : String)
deriving Repr, DecidableEq

/-- One call issued to the engine client, recorded for tracing which requests
a controller operation makes. -/
inductive EngineCall where
  | pullCall (image : String)
  | runCall (cfg : ContainerConfig)
  | getCall (container_id : String)
  | stopCall (container_id : String)
  | removeCall (container_id : String) (force : Bool)
  | logsCall (container_id : String) (tail : Nat)
deriving Repr, DecidableEq

/-- Builds the `container_config` dict of `deploy_container` (source lines
66-85): image and `detach=True` always; `name` only when truthy (a present
but empty name is skipped, mirroring `if name:`); environment, ports,
command and volumes copied when the key is present. -/
def buildContainerConfig (config : Config) (image : String) : ContainerConfig :=
  { image := image
    detach := true
    name :=
      match config.name with
      | none => none
      | some n => if n.isEmpty then none else some n
    environment := config.environment
    ports := config.ports
    command := config.command
    volumes := config.volumes }

/-- Embeds `PodManagerController.deploy_container` (source lines 36-99) as
a function of the engine's behaviours. `pullRes` gives the outcome of
`client.images.pull`; its exception is caught and ignored (the two match
branches coincide, mirroring the inner try/except). `runRes` gives the
outcome of `client.containers.run` on the built kwargs. Returns the Python
return value together with the trace of engine calls issued. -/
def deploy_container (pullRes : String → Except String Unit)
    (runRes : ContainerConfig → Except RunErr String)
    (config : Config) : Option String × List EngineCall :=
  match config.image with
  | none => (none, [])
  | some image =>
    if image.isEmpty then
      (none, [])
    else
      let pullTrace : List EngineCall :=
        match pullRes image with
        | .ok _ => [.pullCall image]
        | .error _ => [.pullCall image]
      let cc := buildContainerConfig config image
      match runRes cc with
      | .ok cid => (some cid, pullTrace ++ [.runCall cc])
      | .error (.apiError _) => (none, pullTrace ++ [.runCall cc])
      | .error (.otherErr _) => (none, pullTrace ++ [.runCall cc])

/-- A container record as reported by the engine's list query: the attributes
of the docker container object that `list_containers` reads. -/
structure EngineContainer where
  id : String
  name : String
  status : String
  imageTags : List String
  imageId : String
deriving Repr, DecidableEq

/-- The info dict `list_containers` builds for each engine record. -/
structure ContainerInfo where
  id : String
  name : String
  image : String
  status : String
deriving Repr, DecidableEq

/-- The projection applied to each container inside the loop of
`list_containers` (source lines 115-122): id truncated to 12 characters,
image is the first tag when the tag list is non-empty, otherwise the image
id truncated to 12 characters. -/
def projectInfo (c : EngineContainer) : ContainerInfo :=
  { id := c.id.take 12
    name := c.name
    image :=
      match c.imageTags with
      | t :: _ => t
      | [] => c.imageId.take 12
    status := c.status }

/-- The accumulation loop of `list_containers`: starts with an empty list and
appends one projected record per engine record, in order. -/
def listLoop : List EngineContainer → List ContainerInfo → List ContainerInfo
  | [], acc => acc
  | c :: rest, acc => listLoop rest (acc ++ [projectInfo c])

/-- Embeds `PodManagerController.list_containers` (source lines 101-128): on a
successful engine query, project every record; on any exception, return the
empty list. -/
def list_containers (queryRes : Except String (List EngineContainer)) :
    List ContainerInfo :=
  match queryRes with
  | .ok containers => listLoop containers []
  | .error _ => []

/-- Embeds `PodManagerController.stop_container` (source lines 130-150): resolve the
container (`client.containers.get`), then stop it; `True` when both succeed,
`False` on `NotFound` as well as on any other exception. Also returns the
trace of engine calls. -/
def stop_container (getRes : Except EngErr Unit)
    (stopRes : Except EngErr Unit)
    (container_id : String) : Bool × List EngineCall :=
  match getRes with
  | .error _ => (false, [.getCall container_id])
  | .ok _ =>
    match stopRes with
    | .error _ => (false, [.getCall container_id, .stopCall container_id])
    | .ok _ => (true, [.getCall container_id, .stopCall container_id])

/-- Embeds `PodManagerController.remove_container` (source lines 152-173): resolve
the container, then call `container.remove(force=force)`; `force` defaults to
`false`. `True` when both succeed, `False` on `NotFound` and on any other
exception. -/
def remove_container (getRes : Except EngErr Unit)
    (removeRes : Bool → Except EngErr Unit)
    (container_id : String) (force : Bool := false) : Bool × List EngineCall :=
  match getRes with
  | .error _ => (false, [.getCall container_id])
  | .ok _ =>
    match removeRes force with
    | .error _ => (false, [.getCall container_id, .removeCall container_id force])
    | .ok _ => (true, [.getCall container_id, .removeCall container_id force])

/-- Embeds `PodManagerController.get_container_logs` (source lines 175-195): resolve
the container, fetch `container.logs(tail=tail)` (text after utf-8 decode),
with `tail` defaulting to 100; the text on success, `None` on `NotFound` and
on any other exception. -/
def get_container_logs (getRes : Except EngErr Unit)
    (logsRes : Nat → Except EngErr String)
    (container_id : String) (tail : Nat := 100) : Option String × List EngineCall :=
  match getRes with
  | .error _ => (none, [.getCall container_id])
  | .ok _ =>
    match logsRes tail with
    | .ok text => (some text, [.getCall container_id, .logsCall container_id tail])
    | .error _ => (none, [.getCall container_id, .logsCall container_id tail])

/-- A JSON value, as produced by `json.load`. -/
inductive Json where
  | null
  | bool (b : Bool)
  | num (n : Int)
  | str (s : String)
  | arr (elems : List Json)
  | obj (fields : List (String × Json))
deriving Repr

/-- The state of the file at the path given to
`load_deployments_from_file`: either absent (so `open` raises
`FileNotFoundError`) or present with some text content. -/
inductive FileContent where
  | missing
  | content (text : String)

/-- Embeds `load_deployments_from_file` (source lines 198-209), with `json.load`
abstracted as `parse` (error = `json.JSONDecodeError`): a parsed list is
returned as is, any other parsed value is wrapped in a singleton list; a
missing file and malformed JSON both give the empty list. -/
def load_deployments_from_file (file : FileContent)
    (parse : String → Except String Json) : List Json :=
  match file with
  | .missing => []
  | .content text =>
    match parse text with
    | .error _ => []
    | .ok data =>
      match data with
      | .arr elems => elems
      | d => [d]

/-- The startup deployment loop of `main` (source lines 229-235): for each
deployment in the loaded list, in order, invoke the applier and record the
spec together with the applier's result. The loop body only logs the
outcome; it neither retries nor aborts. -/
def processDeployments (apply : Config → Option String) :
    List Config → List (Config × Option String)
  | [] => []
  | d :: rest => (d, apply d) :: processDeployments apply rest


/-! ## Helper lemmas -/

/-- The accumulation loop of `list_containers` appends the projection of
every record, in order, to the accumulator. -/
theorem listLoop_eq (cs : List EngineContainer) (acc : List ContainerInfo) :
    listLoop cs acc = acc ++ cs.map projectInfo := by
  induction cs generalizing acc with
  | nil => simp [listLoop]
  | cons c rest ih => simp [listLoop, ih]

/-- On a successful engine query, `list_containers` is the projection map
over the engine's records. -/
theorem list_containers_ok (cs : List EngineContainer) :
    list_containers (Except.ok cs) = cs.map projectInfo := by
  simp [list_containers, listLoop_eq]

/-- The startup loop pairs every deployment spec with the applier's result
on it. -/
theorem processDeployments_eq (apply : Config → Option String)
    (deployments : List Config) :
    processDeployments apply deployments =
      deployments.map (fun d => (d, apply d)) := by
  induction deployments with
  | nil => rfl
  | cons d rest ih => simp [processDeployments, ih]

/-! ## Claims -/

/-- C1: with a present, non-empty image, `deploy_container` returns exactly
the identifier the engine reports for the created container when
`containers.run` succeeds, and `None` on any creation failure, with the API
error and the unexpected error giving the same absent result. -/
theorem deploy_container_returns_engine_id
    (pullRes : String → Except String Unit)
    (runRes : ContainerConfig → Except RunErr String)
    (config : Config) (img : String)
    (himg : config.image = some img) (hne : img.isEmpty = false) :
    (∀ cid : String, runRes (buildContainerConfig config img) = Except.ok cid →
        (deploy_container pullRes runRes config).fst = some cid) ∧
    (∀ e : RunErr, runRes (buildContainerConfig config img) = Except.error e →
        (deploy_container pullRes runRes config).fst = none) := by
  constructor
  · intro cid hrun
    simp only [deploy_container, himg, hne, Bool.false_eq_true, if_false, hrun]
  · intro e hrun
    cases e with
    | apiError m =>
      simp only [deploy_container, himg, hne, Bool.false_eq_true, if_false, hrun]
    | otherErr m =>
      simp only [deploy_container, himg, hne, Bool.false_eq_true, if_false, hrun]

/-- Witness for C1: a concrete deployment of `nginx:alpine` where the engine
reports id `abc123def456abc123def456`. -/
theorem deploy_container_returns_engine_id_witness :
    (deploy_container (fun _ => Except.ok ())
        (fun _ => Except.ok "abc123def456abc123def456")
        ⟨some "nginx:alpine", some "web", none, none, none, none⟩).fst =
      some "abc123def456abc123def456" :=
  (deploy_container_returns_engine_id (fun _ => Except.ok ())
      (fun _ => Except.ok "abc123def456abc123def456")
      ⟨some "nginx:alpine", some "web", none, none, none, none⟩
      "nginx:alpine" rfl rfl).left
    "abc123def456abc123def456" rfl

/-- C2: when the image key is absent or its value is the empty string,
`deploy_container` returns `None` and issues no `containers.run` request;
conversely, with a present non-empty image the creation request is always
issued, whatever the other fields hold. -/
theorem deploy_container_image_precondition
    (pullRes : String → Except String Unit)
    (runRes : ContainerConfig → Except RunErr String) :
    (∀ config : Config, (config.image = none ∨ config.image = some "") →
        (deploy_container pullRes runRes config).fst = none ∧
        ∀ cc : ContainerConfig,
          EngineCall.runCall cc ∉ (deploy_container pullRes runRes config).snd) ∧
    (∀ (config : Config) (img : String),
        config.image = some img → img.isEmpty = false →
        EngineCall.runCall (buildContainerConfig config img) ∈
          (deploy_container pullRes runRes config).snd) := by
  constructor
  · intro config h
    rcases h with h | h <;>
      simp [deploy_container, h, String.isEmpty]
  · intro config img himg hne
    simp only [deploy_container, himg, hne, Bool.false_eq_true, if_false]
    cases hr : runRes (buildContainerConfig config img) with
    | ok cid => cases hp : pullRes img <;> simp
    | error e => cases e <;> cases hp : pullRes img <;> simp

/-- Witness for C2: a config with no image key yields no identifier. -/
theorem deploy_container_image_precondition_witness :
    (deploy_container (fun _ => Except.ok ()) (fun _ => Except.ok "cid0")
        ⟨none, some "web", none, none, none, none⟩).fst = none :=
  ((deploy_container_image_precondition (fun _ => Except.ok ())
      (fun _ => Except.ok "cid0")).left
    ⟨none, some "web", none, none, none, none⟩ (Or.inl rfl)).left

/-- C7: with a present non-empty image, the pull outcome is irrelevant: the
result and the trace are the same for any two pull behaviours, the creation
request is still issued, and a failing pull with a succeeding creation still
yields the engine's identifier. -/
theorem deploy_container_pull_nonfatal
    (runRes : ContainerConfig → Except RunErr String)
    (config : Config) (img : String)
    (himg : config.image = some img) (hne : img.isEmpty = false) :
    ∀ p q : String → Except String Unit,
      deploy_container p runRes config = deploy_container q runRes config ∧
      EngineCall.runCall (buildContainerConfig config img) ∈
        (deploy_container p runRes config).snd ∧
      (∀ cid : String, runRes (buildContainerConfig config img) = Except.ok cid →
        (deploy_container p runRes config).fst = some cid) := by
  intro p q
  refine ⟨?_, ?_, ?_⟩
  · simp only [deploy_container, himg, hne, Bool.false_eq_true, if_false]
    cases hp : p img <;> cases hq : q img <;> rfl
  · simp only [deploy_container, himg, hne, Bool.false_eq_true, if_false]
    cases hr : runRes (buildContainerConfig config img) with
    | ok cid => cases hp : p img <;> simp
    | error e => cases e <;> cases hp : p img <;> simp
  · intro cid hrun
    simp only [deploy_container, himg, hne, Bool.false_eq_true, if_false, hrun]

/-- Witness for C7: the pull fails but creation succeeds, and the engine's
identifier is still returned. -/
theorem deploy_container_pull_nonfatal_witness :
    (deploy_container (fun _ => Except.error "network unreachable")
        (fun _ => Except.ok "cid1")
        ⟨some "redis:alpine", none, none, none, none, none⟩).fst = some "cid1" :=
  ((deploy_container_pull_nonfatal (fun _ => Except.ok "cid1")
      ⟨some "redis:alpine", none, none, none, none, none⟩
      "redis:alpine" rfl rfl
      (fun _ => Except.error "network unreachable")
      (fun _ => Except.ok ())).right.right) "cid1" rfl

/-- C3: `load_deployments_from_file` returns the empty list for a missing
file and for malformed JSON, wraps a parsed object in a one-element list,
and returns a parsed array unchanged (same elements, same order); being a
total function, it raises nothing to its caller. -/
theorem load_deployments_from_file_cases (parse : String → Except String Json) :
    load_deployments_from_file FileContent.missing parse = [] ∧
    (∀ (text : String) (e : String), parse text = Except.error e →
        load_deployments_from_file (FileContent.content text) parse = []) ∧
    (∀ (text : String) (fields : List (String × Json)),
        parse text = Except.ok (Json.obj fields) →
        load_deployments_from_file (FileContent.content text) parse =
          [Json.obj fields]) ∧
    (∀ (text : String) (elems : List Json),
        parse text = Except.ok (Json.arr elems) →
        load_deployments_from_file (FileContent.content text) parse = elems) := by
  refine ⟨rfl, ?_, ?_, ?_⟩
  · intro text e h
    simp [load_deployments_from_file, h]
  · intro text fields h
    simp [load_deployments_from_file, h]
  · intro text elems h
    simp [load_deployments_from_file, h]

/-- Witness for C3: a file whose text parses to a two-element array loads as
those two elements in order. -/
theorem load_deployments_from_file_cases_witness :
    load_deployments_from_file (FileContent.content "deployments")
        (fun _ => Except.ok (Json.arr
          [Json.obj [("name", Json.str "app1")],
           Json.obj [("name", Json.str "app2")]])) =
      [Json.obj [("name", Json.str "app1")],
       Json.obj [("name", Json.str "app2")]] :=
  (load_deployments_from_file_cases
      (fun _ => Except.ok (Json.arr
        [Json.obj [("name", Json.str "app1")],
         Json.obj [("name", Json.str "app2")]]))).right.right.right
    "deployments"
    [Json.obj [("name", Json.str "app1")], Json.obj [("name", Json.str "app2")]]
    rfl

/-- C4: on a successful engine query, `list_containers` yields one record per
engine record in the same order, the image field being the first tag when one
exists and the truncated image identifier otherwise. -/
theorem list_containers_projection (cs : List EngineContainer) :
    (list_containers (Except.ok cs)).length = cs.length ∧
    ∀ i : Nat, (list_containers (Except.ok cs))[i]? =
      (cs[i]?).map (fun c =>
        { id := c.id.take 12
          name := c.name
          image :=
            match c.imageTags with
            | t :: _ => t
            | [] => c.imageId.take 12
          status := c.status }) := by
  refine ⟨?_, ?_⟩
  · simp [list_containers_ok]
  · intro i
    simp only [list_containers_ok, List.getElem?_map]
    rfl

/-- C8: on any failure of the engine's list query, `list_containers` returns
the empty list; the error never reaches the caller. -/
theorem list_containers_failure (msg : String) :
    list_containers (Except.error msg) = [] := rfl

set_option maxHeartbeats 1000000 in
/-- C10: every record of `list_containers` carries only the first 12
characters of the engine's identifier, and this truncation loses
information: two distinct engine identifiers longer than 12 characters can
project to the same record id. -/
theorem list_containers_truncates_id :
    (∀ (cs : List EngineContainer) (i : Nat),
        ((list_containers (Except.ok cs))[i]?).map ContainerInfo.id =
          (cs[i]?).map (fun c => c.id.take 12)) ∧
    ∃ c₁ c₂ : EngineContainer, c₁.id ≠ c₂.id ∧
      12 < c₁.id.length ∧ 12 < c₂.id.length ∧
      (projectInfo c₁).id = (projectInfo c₂).id := by
  refine ⟨?_, ?_⟩
  · intro cs i
    rw [list_containers_ok]
    cases h : cs[i]? with
    | none => simp [List.getElem?_map, h]
    | some c => simp [List.getElem?_map, h, projectInfo]
  · refine ⟨⟨"abcdefghijklX", "n1", "running", [], "img1"⟩,
      ⟨"abcdefghijklY", "n2", "running", [], "img2"⟩, ?_, ?_, ?_, ?_⟩ <;> decide

/-- C5: `stop_container` and `remove_container` return `True` exactly when
resolving the container and issuing the engine's stop/remove both succeed;
`remove_container` hands its force flag (default `false`) to the engine's
remove call; and every failure kind, not-found included, yields the same
`False`. -/
theorem stop_remove_boolean_outcome (g s : Except EngErr Unit)
    (r : Bool → Except EngErr Unit) (container_id : String) (force : Bool) :
    ((stop_container g s container_id).fst = true ↔
      (g = Except.ok () ∧ s = Except.ok ())) ∧
    ((remove_container g r container_id force).fst = true ↔
      (g = Except.ok () ∧ r force = Except.ok ())) ∧
    remove_container g r container_id = remove_container g r container_id false ∧
    (g = Except.ok () →
      EngineCall.removeCall container_id force ∈
        (remove_container g r container_id force).snd) ∧
    (∀ e e' : EngErr,
      (stop_container (Except.error e) s container_id).fst =
        (stop_container (Except.error e') s container_id).fst ∧
      (remove_container (Except.error e) r container_id force).fst =
        (remove_container (Except.error e') r container_id force).fst) := by
  refine ⟨?_, ?_, rfl, ?_, ?_⟩
  · cases g with
    | error e => simp [stop_container]
    | ok u =>
      cases s with
      | error e => simp [stop_container]
      | ok v => simp [stop_container]
  · cases g with
    | error e => simp [remove_container]
    | ok u =>
      cases hr : r force with
      | error e => simp [remove_container, hr]
      | ok v => simp [remove_container, hr]
  · intro hg
    subst hg
    cases hr : r force with
    | error e => simp [remove_container, hr]
    | ok v => simp [remove_container, hr]
  · intro e e'
    exact ⟨rfl, rfl⟩

/-- Witness for C5: with a resolvable container and a succeeding engine,
stopping reports `True` and removing with `force = true` records a remove
call carrying `force = true`. -/
theorem stop_remove_boolean_outcome_witness :
    (stop_container (Except.ok ()) (Except.ok ()) "c1").fst = true ∧
    EngineCall.removeCall "c1" true ∈
      (remove_container (Except.ok ()) (fun _ => Except.ok ()) "c1" true).snd :=
  ⟨(stop_remove_boolean_outcome (Except.ok ()) (Except.ok ())
      (fun _ => Except.ok ()) "c1" true).left.mpr ⟨rfl, rfl⟩,
   (stop_remove_boolean_outcome (Except.ok ()) (Except.ok ())
      (fun _ => Except.ok ()) "c1" true).right.right.right.left rfl⟩

/-- C6: the startup loop invokes the applier once per loaded deployment
spec, in order: the recorded invocations are exactly the loaded specs, and
the i-th invocation's argument and result depend only on the i-th spec,
whatever the other invocations return. -/
theorem main_applies_each_deployment (apply : Config → Option String)
    (deployments : List Config) :
    (processDeployments apply deployments).map Prod.fst = deployments ∧
    ∀ i : Nat, (processDeployments apply deployments)[i]? =
      (deployments[i]?).map (fun d => (d, apply d)) := by
  refine ⟨?_, ?_⟩
  · rw [processDeployments_eq, List.map_map]
    exact List.map_id deployments
  · intro i
    simp [processDeployments_eq, List.getElem?_map]

/-- C9: `get_container_logs` defaults its tail argument to 100, passes the
tail it is given to the engine's logs call, returns the fetched text on
success, and returns `None` both when the container cannot be resolved and
when fetching the logs fails. -/
theorem get_container_logs_contract (g : Except EngErr Unit)
    (l : Nat → Except EngErr String) (container_id : String) :
    get_container_logs g l container_id = get_container_logs g l container_id 100 ∧
    (∀ (tail : Nat) (text : String), g = Except.ok () → l tail = Except.ok text →
      get_container_logs g l container_id tail =
        (some text,
          [EngineCall.getCall container_id,
           EngineCall.logsCall container_id tail])) ∧
    (∀ (tail : Nat) (e : EngErr), g = Except.error e →
      (get_container_logs g l container_id tail).fst = none) ∧
    (∀ (tail : Nat) (e : EngErr), g = Except.ok () → l tail = Except.error e →
      (get_container_logs g l container_id tail).fst = none) := by
  refine ⟨rfl, ?_, ?_, ?_⟩
  · intro tail text hg hl
    subst hg
    simp [get_container_logs, hl]
  · intro tail e hg
    subst hg
    simp [get_container_logs]
  · intro tail e hg hl
    subst hg
    simp [get_container_logs, hl]

/-- Witness for C9: with a resolvable container whose log fetch succeeds,
the default call returns the text and records a logs call with tail 100. -/
theorem get_container_logs_contract_witness :
    get_container_logs (Except.ok ()) (fun _ => Except.ok "log line") "c2" =
      (some "log line",
        [EngineCall.getCall "c2", EngineCall.logsCall "c2" 100]) :=
  (get_container_logs_contract (Except.ok ())
      (fun _ => Except.ok "log line") "c2").right.left 100 "log line" rfl rfl

end PodManager
